import Mathlib

/-!
Shallow embedding of the `di_rn` React Native dependency-injection library:
the capability registries (theme, network, storage, analytics, notification,
info), the observable info/banner service with its auto-dismiss timers, the
lazy native-module proxies, the network client's timeout handling, and the
`initializeRNApp` startup orchestrator.

JS `Set` objects of listener callbacks are modelled as insertion-ordered
duplicate-free lists of callback identities (`Nat`); JS timers are modelled
explicitly as a pending-timer list with ids, so that `clearTimeout` and a
stale timer firing are distinguishable.
-/

namespace DiRN

/-- JS `Set.add`: inserts at the end unless the element is already present. -/
def setAdd (l : List Nat) (x : Nat) : List Nat :=
  if x ∈ l then l else l ++ [x]

/-- JS `Set.delete`: removes the element if present, no-op otherwise. -/
def setDelete (l : List Nat) (x : Nat) : List Nat :=
  l.filter (fun y => y ≠ x)

/-- `InfoType` from `@sudobility/types` as used by the info service. -/
inductive InfoType
  | info
  | success
  | warning
  | error
deriving DecidableEq, Repr

/-- `BannerState` from `info.rn.ts`: the state shape managed by `RNInfoService`.
`duration` is the optional auto-dismiss interval recorded on `show`. -/
structure BannerState where
  isVisible : Bool
  title : String
  description : String
  variant : InfoType
  duration : Option Int := none
deriving DecidableEq, Repr

/-- The initial private `state` of a fresh `RNInfoService`. -/
def initialBannerState : BannerState :=
  { isVisible := false, title := "", description := "", variant := InfoType.info }

/-- A pending JS timer: its `setTimeout` id and absolute fire time. -/
structure Timer where
  id : Nat
  fireAt : Int
deriving DecidableEq, Repr

/-- State of one `RNInfoService` instance together with the JS timer queue
that its `setTimeout`/`clearTimeout` calls manipulate.  `notifLog` records
every synchronous invocation of a listener callback as
`(time, callback id, state delivered)`; `stateLog` records every `setState`
as `(time, new state)`. -/
structure InfoSys where
  state : BannerState
  listeners : List Nat
  dismissTimeoutId : Option Nat
  pending : List Timer
  nextTimerId : Nat
  notifLog : List (Int × Nat × BannerState)
  stateLog : List (Int × BannerState)
deriving DecidableEq, Repr

/-- A freshly constructed `RNInfoService` with an empty timer queue. -/
def newInfoSys : InfoSys :=
  { state := initialBannerState, listeners := [], dismissTimeoutId := none,
    pending := [], nextTimerId := 0, notifLog := [], stateLog := [] }

/-- `notifyListeners`: invokes every currently registered listener with the
current state (JS `Set.forEach` in insertion order). -/
def notifyListeners (now : Int) (s : InfoSys) : InfoSys :=
  { s with notifLog := s.notifLog ++ s.listeners.map (fun l => (now, l, s.state)) }

/-- `setState`: stores the new state then calls `notifyListeners`. -/
def setState (now : Int) (st : BannerState) (s : InfoSys) : InfoSys :=
  notifyListeners now { s with state := st, stateLog := s.stateLog ++ [(now, st)] }

/-- JS `clearTimeout id`: removes the pending timer with that id, if any. -/
def clearTimeout (id : Nat) (s : InfoSys) : InfoSys :=
  { s with pending := s.pending.filter (fun t => t.id ≠ id) }

/-- `clearDismissTimeout` from `RNInfoService`: clears the tracked timer id. -/
def clearDismissTimeout (s : InfoSys) : InfoSys :=
  match s.dismissTimeoutId with
  | some id => { clearTimeout id s with dismissTimeoutId := none }
  | none => s

/-- `setTimeout(() => this.dismiss(), delay)` inside `show`: schedules a fresh
timer and records its id in `dismissTimeoutId`. -/
def setTimeoutDismiss (now delay : Int) (s : InfoSys) : InfoSys :=
  { s with pending := s.pending ++ [{ id := s.nextTimerId, fireAt := now + delay }],
           dismissTimeoutId := some s.nextTimerId,
           nextTimerId := s.nextTimerId + 1 }

/-- `RNInfoService.dismiss`: cancels the tracked timer then hides the banner
(keeping title, description, variant and duration via the object spread). -/
def infoDismiss (now : Int) (s : InfoSys) : InfoSys :=
  let s1 := clearDismissTimeout s
  setState now { s1.state with isVisible := false } s1

/-- `RNInfoService.show`: cancels the tracked timer, publishes the new visible
state (recording `duration` exactly when `interval != null`), and schedules an
auto-dismiss timer when `interval ?? 4000` is positive. -/
def infoShow (now : Int) (title text : String) (ty : InfoType) (interval : Option Int)
    (s : InfoSys) : InfoSys :=
  let s1 := clearDismissTimeout s
  let newState : BannerState :=
    { isVisible := true, title := title, description := text, variant := ty,
      duration := interval }
  let s2 := setState now newState s1
  let dismissAfter := interval.getD 4000
  if 0 < dismissAfter then setTimeoutDismiss now dismissAfter s2 else s2

/-- `RNInfoService.subscribe`: adds the callback to the listener `Set`, then
immediately invokes it with the current state; the returned token is the
callback identity captured by the unsubscribe closure. -/
def infoSubscribe (now : Int) (cb : Nat) (s : InfoSys) : InfoSys × Nat :=
  let s1 := { s with listeners := setAdd s.listeners cb }
  ({ s1 with notifLog := s1.notifLog ++ [(now, cb, s1.state)] }, cb)

/-- The unsubscribe closure returned by `subscribe`:
`() => { this.listeners.delete(listener) }`. -/
def infoUnsubscribe (cb : Nat) (s : InfoSys) : InfoSys :=
  { s with listeners := setDelete s.listeners cb }

/-- The pending timer with the smallest fire time, if any. -/
def earliestTimer : List Timer → Option Timer
  | [] => none
  | t :: ts =>
    match earliestTimer ts with
    | none => some t
    | some u => if t.fireAt ≤ u.fireAt then some t else some u

/-- A due timer fires: it leaves the queue and its callback
(`() => this.dismiss()`) runs at its fire time. -/
def fireTimer (t : Timer) (s : InfoSys) : InfoSys :=
  infoDismiss t.fireAt { s with pending := s.pending.filter (fun u => u.id ≠ t.id) }

/-- Fire every pending timer due at or before `now`, earliest first.
The fuel is the pending-queue length; firing only removes timers. -/
def fireDue : Nat → Int → InfoSys → InfoSys
  | 0, _, s => s
  | fuel + 1, now, s =>
    match earliestTimer (s.pending.filter (fun t => t.fireAt ≤ now)) with
    | none => s
    | some t => fireDue fuel now (fireTimer t s)

/-- Fire every remaining pending timer, earliest first. -/
def fireAll : Nat → InfoSys → InfoSys
  | 0, s => s
  | fuel + 1, s =>
    match earliestTimer s.pending with
    | none => s
    | some t => fireAll fuel (fireTimer t s)

/-- External calls a client can make on the info service. -/
inductive InfoCmd
  | show (title text : String) (ty : InfoType) (interval : Option Int)
  | dismiss
  | subscribe (cb : Nat)

/-- Apply one external call at time `now`. -/
def applyCmd (now : Int) : InfoCmd → InfoSys → InfoSys
  | InfoCmd.show a b c d, s => infoShow now a b c d s
  | InfoCmd.dismiss, s => infoDismiss now s
  | InfoCmd.subscribe cb, s => (infoSubscribe now cb s).1

/-- Run a time-ordered list of external calls on the single JS thread:
before each call every timer already due fires, and after the last call all
remaining timers run to completion. -/
def runCmds : List (Int × InfoCmd) → InfoSys → InfoSys
  | [], s => fireAll s.pending.length s
  | (t, c) :: rest, s => runCmds rest (applyCmd t c (fireDue s.pending.length t s))

/-- The visibility trace of a run: each `setState` as `(time, isVisible)`. -/
def visTrace (s : InfoSys) : List (Int × Bool) :=
  s.stateLog.map (fun e => (e.1, e.2.isVisible))

/-! ### `RNNetworkService` (network.rn.ts): connectivity watcher -/

/-- Observable part of `RNNetworkService`.  `notifLog` records every
synchronous listener invocation `(callback id, isOnline value delivered)`;
the `NetInfo.fetch()` in `initializeNetworkMonitoring` is asynchronous, so no
synchronous listener invocation arises from initialization. -/
structure NetSvc where
  isOnlineState : Bool
  listeners : List Nat
  hasNativeSub : Bool
  initialized : Bool
  notifLog : List (Nat × Bool)
deriving DecidableEq, Repr

/-- A freshly constructed `RNNetworkService` (constructor defers setup). -/
def newNetSvc : NetSvc :=
  { isOnlineState := true, listeners := [], hasNativeSub := false,
    initialized := false, notifLog := [] }

/-- `ensureInitialized`: on first use, attaches the NetInfo event listener
when the NetInfo module is available. -/
def ensureInitialized (netinfoAvail : Bool) (s : NetSvc) : NetSvc :=
  if s.initialized then s
  else
    let s1 := { s with initialized := true }
    if netinfoAvail then { s1 with hasNativeSub := true } else s1

/-- `RNNetworkService.watchNetworkStatus`: ensures initialization, adds the
callback to the listener `Set`, and returns the cleanup closure (modelled by
the callback identity).  No listener is invoked synchronously. -/
def watchNetworkStatus (netinfoAvail : Bool) (cb : Nat) (s : NetSvc) : NetSvc × Nat :=
  let s1 := ensureInitialized netinfoAvail s
  ({ s1 with listeners := setAdd s1.listeners cb }, cb)

/-! ### `RNThemeService` (theme.rn.ts): system-theme watcher -/

/-- Listener `Set` of `RNThemeService`. -/
structure ThemeSvc where
  listeners : List Nat
deriving DecidableEq, Repr

/-- `RNThemeService.watchSystemTheme`: adds the callback to the listener `Set`
and returns the cleanup closure; no listener is invoked synchronously. -/
def watchSystemTheme (cb : Nat) (s : ThemeSvc) : ThemeSvc × Nat :=
  ({ listeners := setAdd s.listeners cb }, cb)

/-! ### Singleton registries

Each capability module holds a module-level nullable singleton variable.
Instances are identified by `Nat` ids; constructing a default instance takes
the registry's `nextId` (so distinct constructions get distinct ids), and
`disposedLog` records each `dispose()` call on an owned instance, in order. -/

structure Reg where
  current : Option Nat
  nextId : Nat
  disposedLog : List Nat
deriving DecidableEq, Repr

/-- A registry whose singleton variable is `null`. -/
def emptyReg : Reg := { current := none, nextId := 0, disposedLog := [] }

/-- `getThemeService` (theme.rn.ts): lazily constructs the singleton. -/
def getThemeService (r : Reg) : Reg × Nat :=
  match r.current with
  | some i => (r, i)
  | none => ({ r with current := some r.nextId, nextId := r.nextId + 1 }, r.nextId)

/-- `initializeThemeService` (theme.rn.ts): disposes a live singleton first,
then installs the supplied instance or a freshly constructed default. -/
def initializeThemeService (inst : Option Nat) (r : Reg) : Reg × Nat :=
  let r1 :=
    match r.current with
    | some i => { r with disposedLog := r.disposedLog ++ [i] }
    | none => r
  match inst with
  | some i => ({ r1 with current := some i }, i)
  | none => ({ r1 with current := some r1.nextId, nextId := r1.nextId + 1 }, r1.nextId)

/-- `resetThemeService` (theme.rn.ts): disposes the live singleton and clears
the variable; no-op when already empty. -/
def resetThemeService (r : Reg) : Reg :=
  match r.current with
  | some i => { r with current := none, disposedLog := r.disposedLog ++ [i] }
  | none => r

/-- `getNetworkService` (network-singleton.ts). -/
def getNetworkService (r : Reg) : Reg × Nat :=
  match r.current with
  | some i => (r, i)
  | none => ({ r with current := some r.nextId, nextId := r.nextId + 1 }, r.nextId)

/-- `initializeNetworkService` (network-singleton.ts): dispose-then-replace,
same shape as the theme registry. -/
def initializeNetworkService (inst : Option Nat) (r : Reg) : Reg × Nat :=
  let r1 :=
    match r.current with
    | some i => { r with disposedLog := r.disposedLog ++ [i] }
    | none => r
  match inst with
  | some i => ({ r1 with current := some i }, i)
  | none => ({ r1 with current := some r1.nextId, nextId := r1.nextId + 1 }, r1.nextId)

/-- `resetNetworkService` (network-singleton.ts): dispose and clear; no-op
when already empty. -/
def resetNetworkService (r : Reg) : Reg :=
  match r.current with
  | some i => { r with current := none, disposedLog := r.disposedLog ++ [i] }
  | none => r

/-- `getStorageService` (storage service module). -/
def getStorageService (r : Reg) : Reg × Nat :=
  match r.current with
  | some i => (r, i)
  | none => ({ r with current := some r.nextId, nextId := r.nextId + 1 }, r.nextId)

/-- `initializeStorageService`: overwrites the singleton variable with the
supplied instance or a fresh default; the prior instance is not disposed. -/
def initializeStorageService (inst : Option Nat) (r : Reg) : Reg × Nat :=
  match inst with
  | some i => ({ r with current := some i }, i)
  | none => ({ r with current := some r.nextId, nextId := r.nextId + 1 }, r.nextId)

/-- `resetStorageService`: nulls the singleton variable without disposing. -/
def resetStorageService (r : Reg) : Reg :=
  { r with current := none }

/-- `initializeAnalyticsClient` (analytics.rn.ts): overwrite, no dispose. -/
def initializeAnalyticsClient (inst : Option Nat) (r : Reg) : Reg × Nat :=
  match inst with
  | some i => ({ r with current := some i }, i)
  | none => ({ r with current := some r.nextId, nextId := r.nextId + 1 }, r.nextId)

/-- `resetAnalyticsClient` (analytics.rn.ts): nulls without disposing. -/
def resetAnalyticsClient (r : Reg) : Reg :=
  { r with current := none }

/-- `initializeNotificationService` (notification module): overwrite, no
dispose. -/
def initializeNotificationService (inst : Option Nat) (r : Reg) : Reg × Nat :=
  match inst with
  | some i => ({ r with current := some i }, i)
  | none => ({ r with current := some r.nextId, nextId := r.nextId + 1 }, r.nextId)

/-- `initializeInfoService` (info.rn.ts): returns immediately when a singleton
is already installed, ignoring the argument; otherwise installs the supplied
instance or a fresh default (and registers it with `@sudobility/di`). -/
def initializeInfoService (inst : Option Nat) (r : Reg) : Reg :=
  match r.current with
  | some _ => r
  | none =>
    match inst with
    | some i => { r with current := some i }
    | none => { r with current := some r.nextId, nextId := r.nextId + 1 }

/-- `getInfoService` (info.rn.ts): returns the singleton, `none` modelling the
thrown not-initialized error. -/
def getInfoService (r : Reg) : Option Nat :=
  r.current

/-- `resetInfoService` (info.rn.ts): nulls the singleton variable only; the
prior instance's listeners and pending timers are untouched. -/
def resetInfoService (r : Reg) : Reg :=
  { r with current := none }

/-- The module-level info singleton variable together with the state of a
live `RNInfoService` instance it may reference.  `resetInfoService` only
nulls the variable; the instance (and its pending timer) lives on. -/
structure InfoWorld where
  singleton : Option Nat
  sys : InfoSys
deriving DecidableEq, Repr

/-- `resetInfoService` acting on the world: `infoServiceInstance = null`. -/
def resetInfoServiceW (w : InfoWorld) : InfoWorld :=
  { w with singleton := none }

/-! ### Lazy native-module proxies (`getNetInfo`, `getNotifee`)

The module-level cache variable starts `null`; a `require` inside
`try/catch` fills it on success and leaves it `null` on failure.
The cached value is the module object, whose `default` export may itself be
absent, so the cache is `Option (Option Nat)`. `attempts` counts `require`
calls (load attempts / I/O). -/

structure ProxyState where
  cached : Option (Option Nat)
  attempts : Nat
deriving DecidableEq, Repr

/-- A fresh proxy: `let NetInfoModule = null`. -/
def newProxy : ProxyState := { cached := none, attempts := 0 }

/-- `getNetInfo` (network.rn.ts): `if (!NetInfoModule) try { require(...) }`;
returns `NetInfoModule?.default ?? null`.  `load` is the environment: `none`
means the `require` throws, `some m` that it yields a module with default
export `m`. -/
def getNetInfo (load : Option (Option Nat)) (s : ProxyState) : ProxyState × Option Nat :=
  match s.cached with
  | some m => (s, m)
  | none =>
    let s1 := { s with attempts := s.attempts + 1 }
    match load with
    | some m => ({ s1 with cached := some m }, m)
    | none => (s1, none)

/-- What a `require('@notifee/react-native')` yields when it succeeds. -/
structure NotifeeModule where
  defaultExport : Option Nat
  importanceHigh : Option Nat
  authAuthorized : Option Nat
  authProvisional : Option Nat
deriving DecidableEq, Repr

/-- Cache and module-level constants of the notifee proxy
(notification.rn.ts). -/
structure NotifeeProxyState where
  cached : Option (Option Nat)
  attempts : Nat
  androidImportance : Nat
  authStatusAuthorized : Nat
  authStatusProvisional : Nat
deriving DecidableEq, Repr

/-- Initial notifee proxy state with the declared fallback constants. -/
def newNotifeeProxy : NotifeeProxyState :=
  { cached := none, attempts := 0, androidImportance := 4,
    authStatusAuthorized := 1, authStatusProvisional := 3 }

/-- `getNotifee` (notification.rn.ts): same caching skeleton as `getNetInfo`,
additionally latching the importance and authorization constants with `?? `
fallbacks on a successful load. -/
def getNotifee (load : Option NotifeeModule) (s : NotifeeProxyState) :
    NotifeeProxyState × Option Nat :=
  match s.cached with
  | some m => (s, m)
  | none =>
    let s1 := { s with attempts := s.attempts + 1 }
    match load with
    | some m =>
      ({ s1 with cached := some m.defaultExport,
                 androidImportance := m.importanceHigh.getD 4,
                 authStatusAuthorized := m.authAuthorized.getD 1,
                 authStatusProvisional := m.authProvisional.getD 3 },
       m.defaultExport)
    | none => (s1, none)

/-! ### `RNNetworkClient.request` timeout handling -/

/-- A JS error value: only its `name` and `message` are inspected. -/
structure JsErr where
  name : String
  message : String
deriving DecidableEq, Repr

/-- The typed `NetworkError` subclass (network.rn.ts): `name` is set to
`"NetworkError"` in its constructor. -/
structure NetworkError where
  name : String
  message : String
  status : Nat
  statusText : String
deriving DecidableEq, Repr

/-- What `fetch` would do absent an abort: settle after `delay` milliseconds
with a response or a rejection. -/
structure FetchEnv where
  delay : Int
  result : Except JsErr (Bool × Nat × String)
deriving Repr

/-- Failure outcomes of `request`: the typed timeout error or a re-thrown
generic error. -/
inductive ReqError
  | network (e : NetworkError)
  | js (e : JsErr)
deriving DecidableEq, Repr

/-- Successful `NetworkResponse` fields relevant here. -/
structure NetResponse where
  success : Bool
  status : Nat
  statusText : String
  ok : Bool
deriving DecidableEq, Repr

/-- `RNNetworkClient.request` (network.rn.ts): an abort timer is armed at
`options?.timeout ?? defaultTimeout`; if it fires before `fetch` settles the
`AbortError` is caught and converted to
`NetworkError('Request timeout', 408, 'Request Timeout')`; otherwise the
response is returned or the original error re-thrown (an externally produced
`AbortError` is converted the same way). -/
def requestRN (defaultTimeout : Int) (timeoutOpt : Option Int) (env : FetchEnv) :
    Except ReqError NetResponse :=
  let timeout := timeoutOpt.getD defaultTimeout
  if timeout < env.delay then
    Except.error (ReqError.network
      { name := "NetworkError", message := "Request timeout",
        status := 408, statusText := "Request Timeout" })
  else
    match env.result with
    | Except.ok (ok, status, statusText) =>
      Except.ok { success := ok, status := status, statusText := statusText, ok := ok }
    | Except.error e =>
      if e.name = "AbortError" then
        Except.error (ReqError.network
          { name := "NetworkError", message := "Request timeout",
            status := 408, statusText := "Request Timeout" })
      else Except.error (ReqError.js e)

/-! ### `initializeRNApp` (init.rn.ts) -/

/-- `RevenueCatConfig` from init.rn.ts. -/
structure RevenueCatConfig where
  apiKey : String
  apiKeySandbox : Option String
  isProduction : Option Bool
  freeTierPackage : Option (String × String)
deriving DecidableEq, Repr

/-- `RNFirebaseOptions` from init.rn.ts. -/
structure RNFirebaseOptions where
  enableAnalytics : Option Bool
  enableRemoteConfig : Option Bool
  enableMessaging : Option Bool
  enableDevelopmentMode : Option Bool
deriving DecidableEq, Repr

/-- `RNAppInitOptions`: the caller-supplied i18n hook is modelled by whether
it is supplied (`hasInitializeI18n`). -/
structure RNAppInitOptions where
  enableFirebaseAuth : Bool := false
  revenueCatConfig : Option RevenueCatConfig := none
  hasInitializeI18n : Bool := false
  firebaseOptions : Option RNFirebaseOptions := none
deriving DecidableEq, Repr

/-- Environment of a run: whether the dynamic `@sudobility/auth_lib` block
succeeds (import plus `initializeFirebaseAuth` plus installing the
auth-aware network service), whether the `@sudobility/subscription_lib`
block succeeds, and whether the caller's i18n hook completes. -/
structure InitEnv where
  authLibOk : Bool
  subsLibOk : Bool
  i18nOk : Bool
deriving DecidableEq, Repr

/-- Observable initialization events of `initializeRNApp`, in program
order. -/
inductive InitEvent
  | storage
  | firebase (opts : Option RNFirebaseOptions)
  | analyticsWrapper
  | analyticsClient
  | authInit
  | networkAuth
  | networkBasic
  | info
  | revenueCatConfigure (apiKey : String)
  | revenueCatInit
  | i18n
  | logError (tag : String)
deriving DecidableEq, Repr

/-- `logError` markers are console logging, not initialization steps. -/
def isStepEvent : InitEvent → Bool
  | InitEvent.logError _ => false
  | _ => true

/-- The production/sandbox API-key selection inside the RevenueCat step. -/
def chosenApiKey (cfg : RevenueCatConfig) : String :=
  if cfg.isProduction.getD true then cfg.apiKey
  else cfg.apiKeySandbox.getD cfg.apiKey

/-- `initializeRNApp` (init.rn.ts), as a straight-line trace semantics.
`analyticsReg` is the module-level `analyticsService` singleton before the
call and `freshId` the id a `new FirebaseAnalyticsService()` would get.
Returns the full event trace together with the promise outcome: on success
the returned analytics handle and the new singleton value.  The awaited
caller-supplied i18n hook is the only uncaught step. -/
def initializeRNApp (env : InitEnv) (opts : RNAppInitOptions)
    (analyticsReg : Option Nat) (freshId : Nat) :
    List InitEvent × Except String (Nat × Option Nat) :=
  let t1 := [InitEvent.storage]
  let t2 := t1 ++ [InitEvent.firebase opts.firebaseOptions]
  let analytics := analyticsReg.getD freshId
  let t3 := t2 ++ [InitEvent.analyticsWrapper]
  let t4 := t3 ++ [InitEvent.analyticsClient]
  let t5 := t4 ++
    (if opts.enableFirebaseAuth then
      (if env.authLibOk then [InitEvent.authInit, InitEvent.networkAuth]
       else [InitEvent.logError "auth", InitEvent.networkBasic])
     else [InitEvent.networkBasic])
  let t6 := t5 ++ [InitEvent.info]
  let t7 := t6 ++
    (match opts.revenueCatConfig with
     | none => []
     | some cfg =>
       if env.subsLibOk then
         [InitEvent.revenueCatConfigure (chosenApiKey cfg), InitEvent.revenueCatInit]
       else [InitEvent.logError "revenuecat"])
  if opts.hasInitializeI18n then
    if env.i18nOk then (t7 ++ [InitEvent.i18n], Except.ok (analytics, some analytics))
    else (t7 ++ [InitEvent.i18n], Except.error "i18n")
  else (t7, Except.ok (analytics, some analytics))

/-- The declared initialization plan of the spec, resolved against the
options and environment: storage, Firebase base service, analytics wrapper,
analytics client, the network step (auth-aware, falling back to the baseline
service on failure), the info service, the RevenueCat step only when its
configuration is present, and the i18n hook only when supplied. -/
def declaredPlan (env : InitEnv) (opts : RNAppInitOptions) : List InitEvent :=
  [InitEvent.storage, InitEvent.firebase opts.firebaseOptions,
   InitEvent.analyticsWrapper, InitEvent.analyticsClient]
  ++ (if opts.enableFirebaseAuth then
        (if env.authLibOk then [InitEvent.authInit, InitEvent.networkAuth]
         else [InitEvent.networkBasic])
      else [InitEvent.networkBasic])
  ++ [InitEvent.info]
  ++ (match opts.revenueCatConfig with
      | none => []
      | some cfg =>
        if env.subsLibOk then
          [InitEvent.revenueCatConfigure (chosenApiKey cfg), InitEvent.revenueCatInit]
        else [])
  ++ (if opts.hasInitializeI18n then [InitEvent.i18n] else [])

/-! ## Helper lemmas on the listener-set model -/

lemma setAdd_idem (l : List Nat) (x : Nat) : setAdd (setAdd l x) x = setAdd l x := by
  by_cases h : x ∈ l
  · simp [setAdd, h]
  · simp [setAdd, h]

lemma mem_setAdd_self (l : List Nat) (x : Nat) : x ∈ setAdd l x := by
  by_cases h : x ∈ l <;> simp [setAdd, h]

lemma mem_setDelete_of_ne {l : List Nat} {x y : Nat} (h : y ≠ x) :
    y ∈ setDelete l x ↔ y ∈ l := by
  simp [setDelete, List.mem_filter, h]

lemma not_mem_setDelete (l : List Nat) (x : Nat) : x ∉ setDelete l x := by
  simp [setDelete, List.mem_filter]

lemma setDelete_idem (l : List Nat) (x : Nat) : setDelete (setDelete l x) x = setDelete l x := by
  simp [setDelete, List.filter_filter]

/-! ## Claim theorems -/

/-- C10: `initializeInfoService` is idempotent after the first call — when an
info-service singleton is already installed, any later call leaves the
registry entirely unchanged (the installed singleton stays live, the supplied
replacement is never installed, nothing is disposed or re-registered). -/
theorem initializeInfoService_ignores_reinit (r : Reg) (inst : Option Nat) (i : Nat)
    (h : r.current = some i) : initializeInfoService inst r = r := by
  unfold initializeInfoService
  rw [h]

/-- Witness for C10 at a concrete live registry and a concrete replacement. -/
theorem initializeInfoService_ignores_reinit_witness :
    initializeInfoService (some 9) { current := some 1, nextId := 2, disposedLog := [] } =
      { current := some 1, nextId := 2, disposedLog := [] } :=
  initializeInfoService_ignores_reinit { current := some 1, nextId := 2, disposedLog := [] }
    (some 9) 1 rfl

/-- C9: when the request deadline (per-request timeout or the client default)
elapses before the response arrives, `RNNetworkClient.request` fails with the
typed `NetworkError` carrying status 408 and name `"NetworkError"`, which is
distinct from the generic `"Error"` name. -/
theorem requestRN_timeout_typed (defaultTimeout : Int) (timeoutOpt : Option Int)
    (env : FetchEnv) (h : timeoutOpt.getD defaultTimeout < env.delay) :
    requestRN defaultTimeout timeoutOpt env =
      Except.error (ReqError.network
        { name := "NetworkError", message := "Request timeout",
          status := 408, statusText := "Request Timeout" }) ∧
    "NetworkError" ≠ "Error" := by
  refine ⟨?_, by decide⟩
  unfold requestRN
  rw [if_pos h]

/-- Witness for C9: a 30000 ms default deadline and a response that would
only arrive at 40000 ms. -/
theorem requestRN_timeout_typed_witness :
    requestRN 30000 none { delay := 40000, result := Except.ok (true, 200, "OK") } =
      Except.error (ReqError.network
        { name := "NetworkError", message := "Request timeout",
          status := 408, statusText := "Request Timeout" }) ∧
    "NetworkError" ≠ "Error" :=
  requestRN_timeout_typed 30000 none
    { delay := 40000, result := Except.ok (true, 200, "OK") } (by decide)

/-- C7 counterexample: after a failed load, `getNetInfo` performs a second
load attempt on the next call within the same cache lifetime — the
`Unavailable` outcome is not cached, so the attempt count after two calls in
a load-failing environment is 2, not at most 1. -/
theorem getNetInfo_retries_after_failure :
    (getNetInfo none (getNetInfo none newProxy).1).1.attempts = 2 ∧ ¬(2 ≤ 1) := by
  decide

/-- C7 amended: a successful resolution is cached — once `cached` is set no
further call performs a load attempt and every call returns the cached
module — but a failed attempt leaves the cache empty, so the next call
performs another load attempt (`getNotifee` behaves the same way). -/
theorem getNetInfo_caches_success_only (s : ProxyState) (ns : NotifeeProxyState)
    (m : Option Nat) (load load2 : Option (Option Nat)) :
    (s.cached = some m → getNetInfo load s = (s, m)) ∧
    (s.cached = none →
      (getNetInfo (some m) s).1.cached = some m ∧
      getNetInfo load2 (getNetInfo (some m) s).1 = ((getNetInfo (some m) s).1, m)) ∧
    (s.cached = none →
      (getNetInfo none s).1.cached = none ∧
      (getNetInfo none s).1.attempts = s.attempts + 1) ∧
    (ns.cached = none →
      (getNotifee none ns).1.cached = none ∧
      (getNotifee none ns).1.attempts = ns.attempts + 1) := by
  refine ⟨fun h => ?_, fun h => ?_, fun h => ?_, fun h => ?_⟩
  · unfold getNetInfo; rw [h]
  · unfold getNetInfo; rw [h]; simp
  · unfold getNetInfo; rw [h]; simp
  · unfold getNotifee; rw [h]; simp

/-- Witness for the amended C7 at concrete cache states. -/
theorem getNetInfo_caches_success_only_witness :
    getNetInfo (some (some 7)) { cached := some (some 5), attempts := 1 } =
      ({ cached := some (some 5), attempts := 1 }, some 5) ∧
    (getNetInfo none newProxy).1.cached = none ∧
    (getNetInfo none newProxy).1.attempts = 1 :=
  ⟨(getNetInfo_caches_success_only { cached := some (some 5), attempts := 1 }
      newNotifeeProxy (some 5) (some (some 7)) none).1 rfl,
   ((getNetInfo_caches_success_only newProxy newNotifeeProxy (some 5) none none).2.2.1 rfl).1,
   ((getNetInfo_caches_success_only newProxy newNotifeeProxy (some 5) none none).2.2.1 rfl).2⟩

/-- C8 counterexample: listener identity is the callback value, not the
subscription token — registering the same callback (id 5) twice on a fresh
`RNInfoService` yields one effective entry in the JS `Set`, not two. -/
theorem infoSubscribe_dedups_same_callback :
    ((infoSubscribe 0 5 (infoSubscribe 0 5 newInfoSys).1).1).listeners = [5] ∧
    ((infoSubscribe 0 5 (infoSubscribe 0 5 newInfoSys).1).1).listeners.length ≠ 2 := by
  decide

/-- C8 amended: the listener `Set` compares callbacks by value — registering
the same callback twice leaves the set unchanged; unsubscribing via the
returned token removes exactly that callback (never a different listener),
and calling the token again is a no-op that does not error. -/
theorem listener_identity_by_callback (s : InfoSys) (now now2 : Int) (x y : Nat)
    (hxy : y ≠ x) :
    ((infoSubscribe now2 x (infoSubscribe now x s).1).1).listeners =
      ((infoSubscribe now x s).1).listeners ∧
    x ∉ (infoUnsubscribe x s).listeners ∧
    (y ∈ (infoUnsubscribe x s).listeners ↔ y ∈ s.listeners) ∧
    infoUnsubscribe x (infoUnsubscribe x s) = infoUnsubscribe x s := by
  refine ⟨?_, not_mem_setDelete _ _, mem_setDelete_of_ne hxy, ?_⟩
  · simp [infoSubscribe, setAdd_idem]
  · simp [infoUnsubscribe, setDelete_idem]

/-- Witness for the amended C8 with callbacks 5 and 6 on a service that has
both registered. -/
theorem listener_identity_by_callback_witness :
    ((infoSubscribe 1 5 (infoSubscribe 0 5 newInfoSys).1).1).listeners =
      ((infoSubscribe 0 5 newInfoSys).1).listeners ∧
    5 ∉ (infoUnsubscribe 5 (infoSubscribe 0 5 newInfoSys).1).listeners ∧
    (6 ∈ (infoUnsubscribe 5 (infoSubscribe 0 5 newInfoSys).1).listeners ↔
      6 ∈ ((infoSubscribe 0 5 newInfoSys).1).listeners) ∧
    infoUnsubscribe 5 (infoUnsubscribe 5 (infoSubscribe 0 5 newInfoSys).1) =
      infoUnsubscribe 5 (infoSubscribe 0 5 newInfoSys).1 :=
  listener_identity_by_callback (infoSubscribe 0 5 newInfoSys).1 0 1 5 6 (by decide)

/-- C4 counterexample: `RNNetworkService.watchNetworkStatus` registers the
listener (id 7) but performs zero synchronous invocations before returning —
not the claimed exactly one delivery of the current state. -/
theorem watchNetworkStatus_no_immediate_call :
    (watchNetworkStatus true 7 newNetSvc).1.notifLog = [] ∧
    (watchNetworkStatus true 7 newNetSvc).1.listeners = [7] := by
  decide

/-- C4 amended: only `RNInfoService.subscribe` delivers the current state to
the new listener, synchronously and exactly once, before returning (the
listener having just been added to the set); `RNNetworkService.watchNetworkStatus`
and `RNThemeService.watchSystemTheme` register the callback for future
changes without any immediate invocation. -/
theorem subscribe_initial_delivery (s : InfoSys) (n : NetSvc) (t : ThemeSvc)
    (now : Int) (cb : Nat) (avail : Bool) :
    (infoSubscribe now cb s).1.notifLog = s.notifLog ++ [(now, cb, s.state)] ∧
    cb ∈ (infoSubscribe now cb s).1.listeners ∧
    (watchNetworkStatus avail cb n).1.notifLog = n.notifLog ∧
    cb ∈ (watchNetworkStatus avail cb n).1.listeners ∧
    cb ∈ (watchSystemTheme cb t).1.listeners := by
  refine ⟨rfl, mem_setAdd_self _ _, ?_, mem_setAdd_self _ _, mem_setAdd_self _ _⟩
  by_cases h1 : n.initialized <;> by_cases h2 : avail <;>
    simp [watchNetworkStatus, ensureInitialized, h1, h2]

/-- C3 counterexample: `initializeStorageService` on a registry with live
instance 1 installs the replacement (instance 9) without ever disposing the
prior instance — the dispose log stays empty. -/
theorem initializeStorageService_no_dispose :
    (initializeStorageService (some 9) { current := some 1, nextId := 2, disposedLog := [] }).1 =
      { current := some 9, nextId := 2, disposedLog := [] } := by
  rfl

/-- C3 amended: only the theme and network registries dispose a live prior
instance on `initialize` (the dispose happening before the new instance is
installed, hence also between two successive `initialize` calls); the storage
registry overwrites without disposing, and the info registry ignores
re-initialization entirely. -/
theorem initialize_dispose_policy (r : Reg) (i : Nat) (inst : Option Nat)
    (h : r.current = some i) :
    (initializeThemeService inst r).1.disposedLog = r.disposedLog ++ [i] ∧
    (initializeNetworkService inst r).1.disposedLog = r.disposedLog ++ [i] ∧
    (∀ j, (initializeThemeService (some j) r).1.current = some j) ∧
    (∀ a b, ((initializeNetworkService (some b)
        (initializeNetworkService (some a) r).1).1).disposedLog =
      (initializeNetworkService (some a) r).1.disposedLog ++ [a]) ∧
    (initializeStorageService inst r).1.disposedLog = r.disposedLog ∧
    initializeInfoService inst r = r := by
  refine ⟨?_, ?_, ?_, ?_, ?_, ?_⟩
  · unfold initializeThemeService; rw [h]; cases inst <;> rfl
  · unfold initializeNetworkService; rw [h]; cases inst <;> rfl
  · intro j; unfold initializeThemeService; rw [h]
  · intro a b; unfold initializeNetworkService; rw [h]
  · unfold initializeStorageService; cases inst <;> rfl
  · unfold initializeInfoService; rw [h]

/-- Witness for the amended C3 at a concrete live registry. -/
theorem initialize_dispose_policy_witness :
    (initializeThemeService (some 9) { current := some 1, nextId := 2, disposedLog := [] }).1.disposedLog = [1] :=
  (initialize_dispose_policy { current := some 1, nextId := 2, disposedLog := [] } 1
    (some 9) rfl).1

/-- An info world with a live singleton instance: listener 3 subscribed and a
banner shown with a 100 ms auto-dismiss, so one timer is pending. -/
def infoWorldLive : InfoWorld :=
  { singleton := some 0,
    sys := infoShow 0 "T" "M" InfoType.info (some 100) (infoSubscribe 0 3 newInfoSys).1 }

/-- The world right after `resetInfoService()` is called at the registry. -/
def infoWorldAfterReset : InfoWorld := resetInfoServiceW infoWorldLive

/-- The prior instance after its still-pending timers have fired. -/
def infoWorldFired : InfoSys :=
  fireAll infoWorldAfterReset.sys.pending.length infoWorldAfterReset.sys

/-- C6 counterexample: `resetInfoService` only nulls the singleton variable —
the prior instance's pending auto-dismiss timer is not cancelled and its
listener set is not cleared, so after the reset the timer still fires at
100 ms and listener 3, registered on the prior instance, receives a further
notification; the reset also never invokes any `dispose()`. -/
theorem resetInfoService_listener_still_notified :
    infoWorldAfterReset.singleton = none ∧
    (100, 3, { isVisible := false, title := "T", description := "M",
               variant := InfoType.info, duration := some 100 }) ∈ infoWorldFired.notifLog ∧
    (resetStorageService { current := some 1, nextId := 2, disposedLog := [] }).disposedLog = [] := by
  decide

/-- C6 amended: every reset returns its registry to Empty, is a no-op when
already Empty, and a subsequent `get` constructs a fresh instance distinct
from any prior one; but only the theme and network resets dispose the live
instance — the storage and info resets clear the reference without
disposing (so listeners and timers of a prior info instance survive). -/
theorem reset_policy (r : Reg) (i : Nat) (h : r.current = some i) (hlt : i < r.nextId) :
    resetThemeService r =
      { current := none, nextId := r.nextId, disposedLog := r.disposedLog ++ [i] } ∧
    resetNetworkService r =
      { current := none, nextId := r.nextId, disposedLog := r.disposedLog ++ [i] } ∧
    (resetStorageService r).current = none ∧
    (resetStorageService r).disposedLog = r.disposedLog ∧
    (resetInfoService r).disposedLog = r.disposedLog ∧
    (getThemeService (resetThemeService r)).2 ≠ i ∧
    (getStorageService (resetStorageService r)).2 ≠ i ∧
    (∀ q : Reg, q.current = none →
      resetThemeService q = q ∧ resetNetworkService q = q ∧
      resetStorageService q = q ∧ resetInfoService q = q) := by
  have h1 : resetThemeService r =
      { current := none, nextId := r.nextId, disposedLog := r.disposedLog ++ [i] } := by
    unfold resetThemeService; rw [h]
  have h2 : resetNetworkService r =
      { current := none, nextId := r.nextId, disposedLog := r.disposedLog ++ [i] } := by
    unfold resetNetworkService; rw [h]
  refine ⟨h1, h2, rfl, rfl, rfl, ?_, ?_, ?_⟩
  · rw [h1]; unfold getThemeService; simp; omega
  · unfold getStorageService resetStorageService; simp; omega
  · intro q hq
    rcases q with ⟨c, n, d⟩
    simp only at hq
    subst hq
    exact ⟨rfl, rfl, rfl, rfl⟩

/-- Witness for the amended C6 at a concrete live registry. -/
theorem reset_policy_witness :
    resetThemeService { current := some 1, nextId := 2, disposedLog := [] } =
      { current := none, nextId := 2, disposedLog := [1] } ∧
    (getStorageService (resetStorageService
      { current := some 1, nextId := 2, disposedLog := [] })).2 ≠ 1 :=
  ⟨(reset_policy { current := some 1, nextId := 2, disposedLog := [] } 1 rfl (by decide)).1,
   (reset_policy { current := some 1, nextId := 2, disposedLog := [] } 1 rfl
     (by decide)).2.2.2.2.2.2.1⟩

/-- A single `show` with auto-dismiss interval `d` at time 0, then quiescence. -/
def showScenario (title text : String) (ty : InfoType) (d : Int) : InfoSys :=
  runCmds [(0, InfoCmd.show title text ty (some d))] newInfoSys

/-- A `show` at time 0 with interval `d`, then a second `show` at time `t2`
with interval `d2`, then quiescence. -/
def showShowScenario (title text : String) (ty : InfoType) (d : Int)
    (title2 text2 : String) (ty2 : InfoType) (t2 d2 : Int) : InfoSys :=
  runCmds [(0, InfoCmd.show title text ty (some d)),
           (t2, InfoCmd.show title2 text2 ty2 (some d2))] newInfoSys

/-- A `show` at time 0 with interval `d`, then a `dismiss` at time `t2`. -/
def showDismissScenario (title text : String) (ty : InfoType) (d t2 : Int) : InfoSys :=
  runCmds [(0, InfoCmd.show title text ty (some d)), (t2, InfoCmd.dismiss)] newInfoSys

/-- C5: `show` with a positive interval `d` makes the banner visible and, with
no further calls, the state transitions to invisible exactly once, at `d`
milliseconds; a second `show` (or a `dismiss`) arriving at `t2` before the
pending timer fires cancels that timer, so the only dismissal happens at
`t2 + d2` from the second call's own timer (respectively at `t2`), never at
the stale time `d`. -/
theorem show_autoDismiss_timing (title text title2 text2 : String) (ty ty2 : InfoType)
    (d t2 d2 : Int) (hd : 0 < d) (ht : 0 ≤ t2) (h2 : t2 < d) (hd2 : 0 < d2) :
    visTrace (showScenario title text ty d) = [(0, true), (d, false)] ∧
    visTrace (showShowScenario title text ty d title2 text2 ty2 t2 d2) =
      [(0, true), (t2, true), (t2 + d2, false)] ∧
    visTrace (showDismissScenario title text ty d t2) = [(0, true), (t2, false)] := by
  have hnd : ¬(d ≤ t2) := by omega
  refine ⟨?_, ?_, ?_⟩ <;>
    simp [showScenario, showShowScenario, showDismissScenario, runCmds, fireDue,
      fireAll, applyCmd, infoShow, infoDismiss, clearDismissTimeout, clearTimeout,
      setTimeoutDismiss, setState, notifyListeners, newInfoSys, initialBannerState,
      earliestTimer, fireTimer, visTrace, hd, hd2, hnd, List.filter]

/-- Witness for C5 at the spec's concrete scenario (`d` = 100 ms, second call
at 50 ms). -/
theorem show_autoDismiss_timing_witness :
    visTrace (showScenario "T" "M" InfoType.info 100) = [(0, true), (100, false)] ∧
    visTrace (showShowScenario "T" "M" InfoType.info 100 "T2" "M2" InfoType.info 50 100) =
      [(0, true), (50, true), (150, false)] ∧
    visTrace (showDismissScenario "T" "M" InfoType.info 100 50) = [(0, true), (50, false)] :=
  show_autoDismiss_timing "T" "M" "T2" "M2" InfoType.info InfoType.info 100 50 100
    (by decide) (by decide) (by decide) (by decide)

/-- C1: for every configuration and environment, the observable step sequence
of `initializeRNApp` is exactly the declared plan, in order — storage, the
Firebase base service, the analytics wrapper, the analytics client, the
network step (auth-aware when enabled and its library loads, otherwise the
baseline network service as fallback), the info service, the RevenueCat step
only when its configuration is present, and the caller-supplied i18n hook
only when supplied.  Each step therefore starts only after its predecessor
reached a terminal outcome. -/
theorem initializeRNApp_plan_order (env : InitEnv) (opts : RNAppInitOptions)
    (analyticsReg : Option Nat) (freshId : Nat) :
    ((initializeRNApp env opts analyticsReg freshId).1).filter isStepEvent =
      declaredPlan env opts := by
  rcases env with ⟨a, sl, il⟩
  rcases opts with ⟨efa, rcc, h18, fo⟩
  cases efa <;> cases a <;> cases sl <;> cases il <;> cases h18 <;>
    rcases rcc with _ | ⟨k, sk, p, ft⟩ <;>
      simp [initializeRNApp, declaredPlan, isStepEvent, chosenApiKey]

/-- C2: a failure of either optional step (the auth-aware network block or
the RevenueCat block) is caught and logged, all subsequent steps still run,
and `initializeRNApp` still resolves with the analytics wrapper singleton
installed in step 3 (provided the caller-supplied i18n hook, the only
uncaught step, completes when supplied). -/
theorem initializeRNApp_optional_failures (env : InitEnv) (opts : RNAppInitOptions)
    (analyticsReg : Option Nat) (freshId : Nat)
    (hi : opts.hasInitializeI18n = true → env.i18nOk = true) :
    (initializeRNApp env opts analyticsReg freshId).2 =
      Except.ok (analyticsReg.getD freshId, some (analyticsReg.getD freshId)) ∧
    (opts.enableFirebaseAuth = true → env.authLibOk = false →
      InitEvent.logError "auth" ∈ (initializeRNApp env opts analyticsReg freshId).1 ∧
      InitEvent.networkBasic ∈ (initializeRNApp env opts analyticsReg freshId).1 ∧
      InitEvent.info ∈ (initializeRNApp env opts analyticsReg freshId).1 ∧
      (opts.hasInitializeI18n = true →
        InitEvent.i18n ∈ (initializeRNApp env opts analyticsReg freshId).1)) ∧
    (∀ cfg, opts.revenueCatConfig = some cfg → env.subsLibOk = false →
      InitEvent.logError "revenuecat" ∈ (initializeRNApp env opts analyticsReg freshId).1 ∧
      (opts.hasInitializeI18n = true →
        InitEvent.i18n ∈ (initializeRNApp env opts analyticsReg freshId).1)) := by
  rcases env with ⟨a, sl, il⟩
  rcases opts with ⟨efa, rcc, h18, fo⟩
  cases efa <;> cases a <;> cases sl <;> cases il <;> cases h18 <;>
    rcases rcc with _ | ⟨k, sk, p, ft⟩ <;>
      simp_all [initializeRNApp, chosenApiKey]

/-- Witness for C2: both optional steps fail (auth library and subscription
library absent) while storage, Firebase, analytics, info and i18n still run
and the analytics wrapper is still returned. -/
theorem initializeRNApp_optional_failures_witness :
    (initializeRNApp { authLibOk := false, subsLibOk := false, i18nOk := true }
      { enableFirebaseAuth := true,
        revenueCatConfig := some
          { apiKey := "k", apiKeySandbox := none, isProduction := none,
            freeTierPackage := none },
        hasInitializeI18n := true, firebaseOptions := none } none 0).2 =
      Except.ok (0, some 0) :=
  (initializeRNApp_optional_failures
    { authLibOk := false, subsLibOk := false, i18nOk := true }
    { enableFirebaseAuth := true,
      revenueCatConfig := some
        { apiKey := "k", apiKeySandbox := none, isProduction := none,
          freeTierPackage := none },
      hasInitializeI18n := true, firebaseOptions := none } none 0 (fun _ => rfl)).1

end DiRN
